import Mathlib

/-!
Verification of the logging façade in src/shared/Logging/Logger.h.

The façade class Logger is a thin, per-category handle. Every public
emitting method forwards its arguments to one of the backend primitives
declared in logging.h (log_enabled, log_message_v, log_printf_v,
log_write, log_dump), which are external to this repository: only the
façade header is in src/. We embed the façade faithfully as functions
that return the list of backend calls a method performs, with nullable
C pointers modelled as Option and byte buffers as lists.
-/

/-- Modelled from the spec: the LogLevel enumeration from logging.h, which is
not in src/. The spec gives the order Trace < Debug < Info < Warn < Error plus
an implicit None or off level; the claims only need the distinct named values,
not the numeric order. -/
inductive LogLevel where
  | trace
  | debug
  | info
  | warn
  | error
  | none
deriving DecidableEq

/-- LOG_LEVEL_TRACE from logging.h (modelled from the spec). -/
def LOG_LEVEL_TRACE : LogLevel := LogLevel.trace

/-- Modelled from the spec: DEBUG_LEVEL, the unlabeled debug level that the
source reserves between Trace and Info. -/
def DEBUG_LEVEL : LogLevel := LogLevel.debug

/-- LOG_LEVEL_INFO from logging.h (modelled from the spec). -/
def LOG_LEVEL_INFO : LogLevel := LogLevel.info

/-- LOG_LEVEL_WARN from logging.h (modelled from the spec). -/
def LOG_LEVEL_WARN : LogLevel := LogLevel.warn

/-- LOG_LEVEL_ERROR from logging.h (modelled from the spec). -/
def LOG_LEVEL_ERROR : LogLevel := LogLevel.error

/-- Modelled from the spec: LOG_MODULE_CATEGORY, the process-wide module
category macro used by the default constructor; the code comment and the spec
say it is typically the string app. -/
def LOG_MODULE_CATEGORY : String := "app"

/-- Modelled from the spec: the byte size that sizeof(LogAttributes) yields.
The exact value is fixed by logging.h, which is not in src/; only its use as
the declared-size tag of the attributes record matters to the claims, so we
pick a representative constant. -/
def logAttributesSizeof : Nat := 8

/-- Modelled from the spec: the LogAttributes record from logging.h, whose
first two fields are a declared-size tag and a flag bitset. -/
structure LogAttributes where
  size : Nat
  flags : Nat
deriving DecidableEq

/-- The variadic argument list of a printf-style call. The façade never
inspects it: it is forwarded verbatim to the backend, so its element type is
irrelevant; we use strings. -/
abbrev VaList := List String

/-- One call into the backend primitives declared in logging.h, as observed by
a counting or mock backend. The emit constructors mirror the signatures the
façade invokes: log_message_v, log_printf_v, log_write and log_dump. Nullable
attribute pointers are Option LogAttributes. -/
inductive BackendCall where
  | enabledQuery (level : LogLevel) (category : String)
  | emitMessage (level : LogLevel) (category : String)
      (attr : Option LogAttributes) (fmt : String) (args : VaList)
  | emitPrintf (level : LogLevel) (category : String)
      (attr : Option LogAttributes) (fmt : String) (args : VaList)
  | emitWrite (level : LogLevel) (category : String)
      (data : List Char) (size : Nat) (attr : Option LogAttributes)
  | emitDump (level : LogLevel) (category : String)
      (data : List (Fin 256)) (size : Nat) (flags : Nat)
      (attr : Option LogAttributes)
deriving DecidableEq

/-- True for the emit constructors, false for the enablement query. -/
def BackendCall.isEmit : BackendCall → Bool
  | BackendCall.enabledQuery _ _ => false
  | _ => true

/-- Number of emit calls (backend calls other than enablement queries) in a
trace. -/
def emitCount (t : List BackendCall) : Nat :=
  (t.filter BackendCall.isEmit).length

/-- Number of enablement queries in a trace. -/
def queryCount (t : List BackendCall) : Nat :=
  (t.filter (fun c => !c.isEmit)).length

/-- The Logger handle: its only state is the bound category name
(the const char pointer member name_). -/
structure Logger where
  name_ : String
deriving DecidableEq

/-- Logger(const char *name): stores the category name. -/
def Logger.make (name : String) : Logger := { name_ := name }

/-- Logger(): the default argument of the constructor is
LOG_MODULE_CATEGORY. -/
def Logger.makeDefault : Logger := Logger.make LOG_MODULE_CATEGORY

/-- name(): returns the stored category name. -/
def Logger.name (lg : Logger) : String := lg.name_

/-- isLevelEnabled(level): returns log_enabled(level, name_, nullptr). The
backend policy log_enabled is external, so it is passed in as a function. -/
def Logger.isLevelEnabled (enabled : LogLevel → String → Bool) (lg : Logger)
    (level : LogLevel) : Bool :=
  enabled level lg.name_

/-- isTraceEnabled(): isLevelEnabled(LOG_LEVEL_TRACE). -/
def Logger.isTraceEnabled (enabled : LogLevel → String → Bool)
    (lg : Logger) : Bool :=
  lg.isLevelEnabled enabled LOG_LEVEL_TRACE

/-- isInfoEnabled(): isLevelEnabled(LOG_LEVEL_INFO). -/
def Logger.isInfoEnabled (enabled : LogLevel → String → Bool)
    (lg : Logger) : Bool :=
  lg.isLevelEnabled enabled LOG_LEVEL_INFO

/-- isWarnEnabled(): isLevelEnabled(LOG_LEVEL_WARN). -/
def Logger.isWarnEnabled (enabled : LogLevel → String → Bool)
    (lg : Logger) : Bool :=
  lg.isLevelEnabled enabled LOG_LEVEL_WARN

/-- isErrorEnabled(): isLevelEnabled(LOG_LEVEL_ERROR). -/
def Logger.isErrorEnabled (enabled : LogLevel → String → Bool)
    (lg : Logger) : Bool :=
  lg.isLevelEnabled enabled LOG_LEVEL_ERROR

/-- DEFAULT_LEVEL = LOG_LEVEL_INFO (Logger.h line 30). -/
def Logger.DEFAULT_LEVEL : LogLevel := LOG_LEVEL_INFO

/-- The private log(LogLevel, const char*, va_list): builds a LogAttributes
record with attr.size = sizeof(LogAttributes) and attr.flags = 0, then calls
log_message_v(level, name_, addressOf attr, nullptr, fmt, args). -/
def Logger.logV (lg : Logger) (level : LogLevel) (fmt : String)
    (args : VaList) : List BackendCall :=
  [BackendCall.emitMessage level lg.name_
    (Option.some { size := logAttributesSizeof, flags := 0 }) fmt args]

/-- trace(fmt, ...): log(LOG_LEVEL_TRACE, fmt, args). -/
def Logger.trace (lg : Logger) (fmt : String) (args : VaList) :
    List BackendCall :=
  lg.logV LOG_LEVEL_TRACE fmt args

/-- debug(fmt, ...): log(DEBUG_LEVEL, fmt, args). -/
def Logger.debug (lg : Logger) (fmt : String) (args : VaList) :
    List BackendCall :=
  lg.logV DEBUG_LEVEL fmt args

/-- info(fmt, ...): log(LOG_LEVEL_INFO, fmt, args). -/
def Logger.info (lg : Logger) (fmt : String) (args : VaList) :
    List BackendCall :=
  lg.logV LOG_LEVEL_INFO fmt args

/-- warn(fmt, ...): log(LOG_LEVEL_WARN, fmt, args). -/
def Logger.warn (lg : Logger) (fmt : String) (args : VaList) :
    List BackendCall :=
  lg.logV LOG_LEVEL_WARN fmt args

/-- error(fmt, ...): log(LOG_LEVEL_ERROR, fmt, args). -/
def Logger.error (lg : Logger) (fmt : String) (args : VaList) :
    List BackendCall :=
  lg.logV LOG_LEVEL_ERROR fmt args

/-- log(LogLevel, fmt, ...): forwards to the va_list overload. -/
def Logger.log (lg : Logger) (level : LogLevel) (fmt : String)
    (args : VaList) : List BackendCall :=
  lg.logV level fmt args

/-- log(fmt, ...): log(DEFAULT_LEVEL, fmt, args). -/
def Logger.logDefault (lg : Logger) (fmt : String) (args : VaList) :
    List BackendCall :=
  lg.logV Logger.DEFAULT_LEVEL fmt args

/-- printf(LogLevel, fmt, ...): log_printf_v(level, name_, nullptr, fmt,
args); the third argument, the attributes position of the primitive, is a
null pointer. -/
def Logger.printf (lg : Logger) (level : LogLevel) (fmt : String)
    (args : VaList) : List BackendCall :=
  [BackendCall.emitPrintf level lg.name_ Option.none fmt args]

/-- printf(fmt, ...): log_printf_v(DEFAULT_LEVEL, name_, nullptr, fmt,
args). -/
def Logger.printfDefault (lg : Logger) (fmt : String) (args : VaList) :
    List BackendCall :=
  [BackendCall.emitPrintf Logger.DEFAULT_LEVEL lg.name_ Option.none fmt args]

/-- write(LogLevel, data, size): if data is non-null, calls
log_write(level, name_, data, size, nullptr); a null buffer is a no-op. -/
def Logger.write (lg : Logger) (level : LogLevel) (data : Option (List Char))
    (size : Nat) : List BackendCall :=
  match data with
  | Option.some d => [BackendCall.emitWrite level lg.name_ d size Option.none]
  | Option.none => []

/-- write(data, size): write(DEFAULT_LEVEL, data, size). -/
def Logger.writeDefault (lg : Logger) (data : Option (List Char))
    (size : Nat) : List BackendCall :=
  lg.write Logger.DEFAULT_LEVEL data size

/-- dump(LogLevel, data, size): if data is non-null, calls
log_dump(level, name_, data, size, 0, nullptr); a null buffer is a no-op. -/
def Logger.dump (lg : Logger) (level : LogLevel)
    (data : Option (List (Fin 256))) (size : Nat) : List BackendCall :=
  match data with
  | Option.some d =>
      [BackendCall.emitDump level lg.name_ d size 0 Option.none]
  | Option.none => []

/-- dump(data, size): dump(DEFAULT_LEVEL, data, size). -/
def Logger.dumpDefault (lg : Logger) (data : Option (List (Fin 256)))
    (size : Nat) : List BackendCall :=
  lg.dump Logger.DEFAULT_LEVEL data size

/-- strlen on a nullable C string: undefined (Option.none) on a null pointer,
the character count otherwise. -/
def strlenOpt : Option (List Char) → Option Nat
  | Option.none => Option.none
  | Option.some s => Option.some s.length

/-- print(LogLevel, str): write(level, str, strlen(str)). strlen dereferences
str before the null guard inside write can run, so a null str makes the whole
call undefined (Option.none) instead of a guarded no-op. -/
def Logger.print (lg : Logger) (level : LogLevel) (str : Option (List Char)) :
    Option (List BackendCall) :=
  match strlenOpt str with
  | Option.none => Option.none
  | Option.some n => Option.some (lg.write level str n)

/-- print(str): print(DEFAULT_LEVEL, str). -/
def Logger.printDefault (lg : Logger) (str : Option (List Char)) :
    Option (List BackendCall) :=
  lg.print Logger.DEFAULT_LEVEL str

/-- Uppercase hexadecimal digit for a value below 16: 0123456789ABCDEF. -/
def hexDigit (n : Fin 16) : Char :=
  if n.val < 10 then Char.ofNat (48 + n.val) else Char.ofNat (55 + n.val)

/-- The two uppercase hexadecimal digits of one byte, high nibble first. -/
def hexPair (b : Fin 256) : List Char :=
  [hexDigit ⟨b.val / 16, by omega⟩, hexDigit ⟨b.val % 16, by omega⟩]

/-- Modelled from the spec: the hex encoding performed by the backend
primitive log_dump (logging.c is not in src/). Each byte becomes two
uppercase hex digits, in buffer order, with no separators, no data loss and
no truncation. -/
def logDumpEncode (data : List (Fin 256)) : List Char :=
  (data.map hexPair).flatten

/-- Claim C1 as stated, specialised to the explicit-level emitting methods
(which the claim covers among "any public emitting method", so refuting this
refutes the claim): whenever the backend enablement policy disables the
(level, category) pair of the call, the method performs no backend emit
call. -/
def facadeGatesWhenDisabled : Prop :=
  ∀ (enabled : LogLevel → String → Bool) (lg : Logger) (level : LogLevel),
    lg.isLevelEnabled enabled level = false →
    (∀ fmt args, emitCount (lg.log level fmt args) = 0) ∧
    (∀ fmt args, emitCount (lg.printf level fmt args) = 0) ∧
    (∀ s, (lg.print level (Option.some s)).map emitCount = Option.some 0) ∧
    (∀ d size, emitCount (lg.write level (Option.some d) size) = 0) ∧
    (∀ b size, emitCount (lg.dump level (Option.some b) size) = 0)

/-- Claim C6 as stated, attributes part: every printf call (explicit-level or
default-level) hands the backend a non-null attributes record together with
the category name and the text. -/
def printfCarriesAttributes : Prop :=
  ∀ (lg : Logger) (level : LogLevel) (fmt : String) (args : VaList),
    (∃ a : LogAttributes, lg.printf level fmt args =
      [BackendCall.emitPrintf level lg.name (Option.some a) fmt args]) ∧
    (∃ a : LogAttributes, lg.printfDefault fmt args =
      [BackendCall.emitPrintf Logger.DEFAULT_LEVEL lg.name
        (Option.some a) fmt args])

/-- logDumpEncode distributes over cons: the encoding of a buffer is the hex
pair of its head followed by the encoding of its tail. -/
theorem logDumpEncode_cons (b : Fin 256) (t : List (Fin 256)) :
    logDumpEncode (b :: t) = hexPair b ++ logDumpEncode t := by
  simp [logDumpEncode]

/-- The hex encoding of an N-byte buffer has exactly 2N characters. -/
theorem logDumpEncode_length (B : List (Fin 256)) :
    (logDumpEncode B).length = 2 * B.length := by
  induction B with
  | nil => rfl
  | cons b t ih =>
      rw [logDumpEncode_cons]
      simp [hexPair, ih]
      ring

/-- The i-th pair of characters of the hex encoding is the hex pair of the
i-th byte. -/
theorem logDumpEncode_pair (B : List (Fin 256)) (i : Nat)
    (h : i < B.length) :
    ((logDumpEncode B).drop (2 * i)).take 2 = hexPair (B.get ⟨i, h⟩) := by
  induction B generalizing i with
  | nil => exact absurd h (by simp)
  | cons b t ih =>
      match i with
      | 0 => simp [logDumpEncode_cons, hexPair]
      | Nat.succ n =>
          have hn : n < t.length := by simpa using h
          have hdrop : 2 * (n + 1) = 2 * n + 1 + 1 := by ring
          rw [logDumpEncode_cons, hexPair, hdrop]
          simpa using ih n hn

/-- Claim C1, counterexample: the façade does not gate emission on the
backend enablement policy. With a policy that disables everything, a call to
write with a non-null buffer still performs one backend emit call, so the
claim that every public emitting method checks enablement first and performs
no backend-emit call when disabled is false. -/
theorem C1_counterexample : ¬ facadeGatesWhenDisabled := by
  intro h
  have h2 := (h (fun _ _ => false) (Logger.make "app") LogLevel.info
    rfl).2.2.2.1 [] 0
  exact absurd h2 (by decide)

/-- Claim C1 as amended: every public emitting method performs no formatting,
no encoding and no enablement query of its own; it forwards its arguments
verbatim in exactly one call to the corresponding backend emit primitive
(zero calls when write or dump receives a null buffer), so the enablement
check is delegated to the backend primitive rather than performed by the
façade. -/
theorem C1_facade_delegates_gating (lg : Logger) (level : LogLevel)
    (fmt : String) (args : VaList) (d : List Char) (b : List (Fin 256))
    (s : List Char) (size : Nat) :
    lg.log level fmt args =
      [BackendCall.emitMessage level lg.name
        (Option.some { size := logAttributesSizeof, flags := 0 }) fmt args] ∧
    lg.printf level fmt args =
      [BackendCall.emitPrintf level lg.name Option.none fmt args] ∧
    lg.print level (Option.some s) =
      Option.some
        [BackendCall.emitWrite level lg.name s s.length Option.none] ∧
    lg.write level (Option.some d) size =
      [BackendCall.emitWrite level lg.name d size Option.none] ∧
    lg.dump level (Option.some b) size =
      [BackendCall.emitDump level lg.name b size 0 Option.none] ∧
    lg.write level Option.none size = [] ∧
    lg.dump level Option.none size = [] ∧
    queryCount (lg.log level fmt args) = 0 ∧
    queryCount (lg.printf level fmt args) = 0 ∧
    queryCount (lg.write level (Option.some d) size) = 0 ∧
    queryCount (lg.dump level (Option.some b) size) = 0 := by
  refine ⟨rfl, rfl, rfl, rfl, rfl, rfl, rfl, rfl, rfl, rfl, rfl⟩

/-- Claim C2: dump with a non-null buffer B of any length N performs the
backend dump call (also for N = 0, rather than skipping it), and the hex text
the backend primitive produces for B has length exactly 2N, with the i-th
pair of characters being the uppercase hex encoding of byte B[i], in order,
for every i. -/
theorem C2_dump_hex_exact (lg : Logger) (level : LogLevel)
    (B : List (Fin 256)) :
    lg.dump level (Option.some B) B.length =
      [BackendCall.emitDump level lg.name B B.length 0 Option.none] ∧
    (logDumpEncode B).length = 2 * B.length ∧
    (∀ i : Nat, ∀ h : i < B.length,
      ((logDumpEncode B).drop (2 * i)).take 2 = hexPair (B.get ⟨i, h⟩)) := by
  exact ⟨rfl, logDumpEncode_length B, fun i h => logDumpEncode_pair B i h⟩

/-- Claim C2, witness at the scenario of the spec: the buffer 0x0A 0xFF is
dumped in one backend call and encodes to the four characters 0AFF. -/
theorem C2_dump_hex_exact_witness :
    ((logDumpEncode [(10 : Fin 256), 255]).drop 2).take 2 = hexPair 255 ∧
    logDumpEncode [(10 : Fin 256), 255] = ['0', 'A', 'F', 'F'] := by
  constructor
  · have h := (C2_dump_hex_exact (Logger.make "app") LogLevel.info
      [10, 255]).2.2 1 (by decide)
    simpa using h
  · decide

/-- Claim C3: write and dump called with a null buffer, at any level and any
size, including through the default-level overloads, perform zero backend
calls and report no error. -/
theorem C3_null_buffer_noop (lg : Logger) (level : LogLevel) (size : Nat) :
    lg.write level Option.none size = [] ∧
    lg.dump level Option.none size = [] ∧
    lg.writeDefault Option.none size = [] ∧
    lg.dumpDefault Option.none size = [] := by
  refine ⟨rfl, rfl, rfl, rfl⟩

/-- Claim C4: each convenience method dispatches with exactly its documented
fixed level and is observably equivalent to the explicit-level log method at
that level with the same arguments (trace at LOG_LEVEL_TRACE, debug at
DEBUG_LEVEL, info at LOG_LEVEL_INFO, warn at LOG_LEVEL_WARN, error at
LOG_LEVEL_ERROR, level-less log at DEFAULT_LEVEL). -/
theorem C4_convenience_dispatch (lg : Logger) (fmt : String)
    (args : VaList) :
    lg.trace fmt args = lg.log LOG_LEVEL_TRACE fmt args ∧
    lg.debug fmt args = lg.log DEBUG_LEVEL fmt args ∧
    lg.info fmt args = lg.log LOG_LEVEL_INFO fmt args ∧
    lg.warn fmt args = lg.log LOG_LEVEL_WARN fmt args ∧
    lg.error fmt args = lg.log LOG_LEVEL_ERROR fmt args ∧
    lg.logDefault fmt args = lg.log Logger.DEFAULT_LEVEL fmt args := by
  refine ⟨rfl, rfl, rfl, rfl, rfl, rfl⟩

/-- Claim C5: every level-less emitting call dispatches at DEFAULT_LEVEL,
which equals LOG_LEVEL_INFO, and is equivalent to the explicit-level call at
that level. -/
theorem C5_levelless_default_info (lg : Logger) (fmt : String)
    (args : VaList) (d : Option (List Char)) (b : Option (List (Fin 256)))
    (s : Option (List Char)) (size : Nat) :
    Logger.DEFAULT_LEVEL = LOG_LEVEL_INFO ∧
    lg.logDefault fmt args = lg.log Logger.DEFAULT_LEVEL fmt args ∧
    lg.printfDefault fmt args = lg.printf Logger.DEFAULT_LEVEL fmt args ∧
    lg.printDefault s = lg.print Logger.DEFAULT_LEVEL s ∧
    lg.writeDefault d size = lg.write Logger.DEFAULT_LEVEL d size ∧
    lg.dumpDefault b size = lg.dump Logger.DEFAULT_LEVEL b size := by
  refine ⟨rfl, rfl, rfl, rfl, rfl, rfl⟩

/-- Claim C6, counterexample: printf hands the backend primitive a null
attributes pointer, not an attributes record, so the claim that every printf
call carries an attributes record is false. -/
theorem C6_counterexample : ¬ printfCarriesAttributes := by
  intro h
  obtain ⟨a, ha⟩ := (h (Logger.make "app") LogLevel.info "x" []).1
  simp [Logger.printf, Logger.name] at ha

/-- Claim C6 as amended: printf, with or without an explicit level, makes
exactly one backend call, to the direct-emission primitive, forwarding the
category name, the format string and the argument list verbatim together
with a null attributes pointer; the façade performs no enablement query of
its own on this path (gating lives inside the backend primitive, as on the
structured path). -/
theorem C6_printf_direct_emission (lg : Logger) (level : LogLevel)
    (fmt : String) (args : VaList) :
    lg.printf level fmt args =
      [BackendCall.emitPrintf level lg.name Option.none fmt args] ∧
    lg.printfDefault fmt args = lg.printf Logger.DEFAULT_LEVEL fmt args ∧
    queryCount (lg.printf level fmt args) = 0 ∧
    queryCount (lg.printfDefault fmt args) = 0 := by
  refine ⟨rfl, rfl, rfl, rfl⟩

/-- Claim C7: name() returns exactly the category string supplied at
construction, and the process-wide module category when none was supplied;
it is a pure accessor. -/
theorem C7_name_accessor (s : String) :
    (Logger.make s).name = s ∧
    Logger.makeDefault.name = LOG_MODULE_CATEGORY := by
  refine ⟨rfl, rfl⟩

/-- Claim C8: every structured formatted emission hands the backend message
primitive a non-null attributes record whose first field is the declared
size of the LogAttributes structure and whose second field, the flag bitset,
is present (set to zero). -/
theorem C8_attributes_versioned (lg : Logger) (level : LogLevel)
    (fmt : String) (args : VaList) :
    lg.logV level fmt args =
      [BackendCall.emitMessage level lg.name
        (Option.some { size := logAttributesSizeof, flags := 0 }) fmt args] ∧
    lg.trace fmt args = lg.logV LOG_LEVEL_TRACE fmt args ∧
    lg.debug fmt args = lg.logV DEBUG_LEVEL fmt args ∧
    lg.info fmt args = lg.logV LOG_LEVEL_INFO fmt args ∧
    lg.warn fmt args = lg.logV LOG_LEVEL_WARN fmt args ∧
    lg.error fmt args = lg.logV LOG_LEVEL_ERROR fmt args ∧
    lg.log level fmt args = lg.logV level fmt args ∧
    lg.logDefault fmt args = lg.logV Logger.DEFAULT_LEVEL fmt args := by
  refine ⟨rfl, rfl, rfl, rfl, rfl, rfl, rfl, rfl⟩

/-- Claim C10: print with a non-null string is observably equivalent to
write at the same level with the string and its strlen; print with a null
string is undefined rather than a guarded no-op, because strlen runs before
the null guard inside write, while write itself handles a null buffer as a
safe no-op. -/
theorem C10_print_equiv_write (lg : Logger) (level : LogLevel)
    (s : List Char) (size : Nat) :
    lg.print level (Option.some s) =
      Option.some (lg.write level (Option.some s) s.length) ∧
    lg.print level Option.none = Option.none ∧
    lg.printDefault Option.none = Option.none ∧
    lg.write level Option.none size = [] := by
  refine ⟨rfl, rfl, rfl, rfl⟩
